import Mathlib

/-!
Shallow embedding of the interaction verification-and-dispatch pipeline of
`deta_discord_interactions/discord.py` (classes `DiscordInteractionsBlueprint`
and `DiscordInteractions`), together with theorems settling the frozen claims
about it.

Modelling conventions:
* Python `dict`s keyed by strings are embedded as association lists with
  the Python mutation semantics (`dictSet` replaces the value of an existing key
  in place, otherwise appends; `dictUpdate` is `dict.update`).
* JSON values (`json.loads` / `json.dumps`) are embedded by a recursive value
  type `Json` with an executable parser and serializer that follow the CPython
  `json` module on the fragment exercised by this program: objects, arrays,
  strings (with escape sequences), integers, booleans and `null`.  Float
  literals, `NaN`/`Infinity` constants and lone-surrogate `\uXXXX` escapes are
  outside the model (floating point is not statable); no claim depends on them.
* The Ed25519 primitive is idealized: for the public key and the signature
  header of a given request there is exactly one message the pair validates
  (`PyEnv.signedMessage`), and `edVerify` succeeds exactly on that message.
  This is the standard EUF-CMA idealization of a deterministic signature
  scheme; hex decoding of the key and signature is absorbed into it.
* Handler callables are opaque to the dispatcher, so a registered handler is
  embedded by the observable outcome of invoking it (`HandlerRet`): it returns
  a modal value, returns a message-like value, or raises an exception.
  Invocations are recorded in an event trace so that "handler invoked exactly
  once" and "no registry lookup happened" are statable.
* Python exceptions are embedded with an explicit `Except PyExc` result; each
  dispatch function returns its `Except` outcome paired with the event trace
  that accrued before the outcome was produced.
-/

/-! ## Python string-keyed dict model -/

/-- Lookup in a Python dict embedded as an association list
(`d.get(k)` / `d[k]` before the KeyError check). -/
def dictGet {α : Type} (k : String) : List (String × α) → Option α
  | [] => none
  | (k0, v0) :: tl => if k0 = k then some v0 else dictGet k tl

/-- Key-membership test (`k in d`). -/
def hasKey {α : Type} (k : String) : List (String × α) → Bool
  | [] => false
  | (k0, _) :: tl => k0 = k || hasKey k tl

/-- Python dict assignment `d[k] = v`: replaces the value of an existing key in
place (keeping its insertion position), otherwise appends the new pair. -/
def dictSet {α : Type} (k : String) (v : α) : List (String × α) → List (String × α)
  | [] => [(k, v)]
  | (k0, v0) :: tl => if k0 = k then (k0, v) :: tl else (k0, v0) :: dictSet k v tl

/-- Python `d.update(other)`: assign every pair of `other`, in order, into `d`. -/
def dictUpdate {α : Type} (d other : List (String × α)) : List (String × α) :=
  other.foldl (fun acc kv => dictSet kv.1 kv.2 acc) d

/-! ## JSON value model (`json.loads` / `json.dumps`) -/

mutual
/-- A JSON value as produced by `json.loads` (integer-number fragment;
object member order is insertion order, as for Python dicts). -/
inductive Json where
  | null
  | bool (b : Bool)
  | num (n : Int)
  | str (s : String)
  | arr (xs : JsonList)
  | obj (kvs : JsonObj)
/-- List of JSON values (elements of a JSON array, in order). -/
inductive JsonList where
  | nil
  | cons (hd : Json) (tl : JsonList)
/-- Members of a JSON object, in insertion order, unique keys. -/
inductive JsonObj where
  | nil
  | cons (k : String) (v : Json) (tl : JsonObj)
end

/-- Lookup of a string key in a JSON object (Python `dict.get` on the decoded
object). -/
def objGet (k : String) : JsonObj → Option Json
  | .nil => none
  | .cons k0 v0 tl => if k0 = k then some v0 else objGet k tl

/-- Python dict assignment on a decoded JSON object: replace the value of an
existing key in place, otherwise append. -/
def objSet (k : String) (v : Json) : JsonObj → JsonObj
  | .nil => .cons k v .nil
  | .cons k0 v0 tl => if k0 = k then .cons k0 v tl else .cons k0 v0 (objSet k v tl)

/-- Build a decoded JSON object from members in document order, with the Python
duplicate-key semantics (position of the first occurrence, value of the last). -/
def objFromList (kvs : List (String × Json)) : JsonObj :=
  kvs.foldl (fun acc kv => objSet kv.1 kv.2 acc) .nil

/-- Build a decoded JSON array from elements in document order. -/
def jsonListOfList : List Json → JsonList
  | [] => .nil
  | v :: tl => .cons v (jsonListOfList tl)

/-- JSON insignificant whitespace characters (CPython `json` WHITESPACE). -/
def isJsonWs (c : Char) : Bool :=
  c = ' ' || c = '\t' || c = '\n' || c = '\r'

/-- Drop leading JSON whitespace. -/
def skipWs : List Char → List Char
  | [] => []
  | c :: rest => if isJsonWs c then skipWs rest else c :: rest

/-- Numeric value of a hexadecimal digit character. -/
def hexDigitVal (c : Char) : Option Nat :=
  if '0' ≤ c ∧ c ≤ '9' then some (c.toNat - 48)
  else if 'a' ≤ c ∧ c ≤ 'f' then some (c.toNat - 87)
  else if 'A' ≤ c ∧ c ≤ 'F' then some (c.toNat - 55)
  else none

/-- Parse the remainder of a JSON string literal (after the opening quote),
accumulating decoded characters in reverse. Control characters are rejected
(strict mode); `\uXXXX` escapes for surrogate code units are outside the
model and rejected. -/
def parseJStringAux : List Char → List Char → Option (String × List Char)
  | [], _ => none
  | '"' :: rest, acc => some (String.mk acc.reverse, rest)
  | '\\' :: '"' :: rest, acc => parseJStringAux rest ('"' :: acc)
  | '\\' :: '\\' :: rest, acc => parseJStringAux rest ('\\' :: acc)
  | '\\' :: '/' :: rest, acc => parseJStringAux rest ('/' :: acc)
  | '\\' :: 'b' :: rest, acc => parseJStringAux rest ('\x08' :: acc)
  | '\\' :: 'f' :: rest, acc => parseJStringAux rest ('\x0c' :: acc)
  | '\\' :: 'n' :: rest, acc => parseJStringAux rest ('\n' :: acc)
  | '\\' :: 'r' :: rest, acc => parseJStringAux rest ('\r' :: acc)
  | '\\' :: 't' :: rest, acc => parseJStringAux rest ('\t' :: acc)
  | '\\' :: 'u' :: a :: b :: c :: d :: rest, acc =>
    (match hexDigitVal a, hexDigitVal b, hexDigitVal c, hexDigitVal d with
     | some x, some y, some z, some w =>
       let n := ((x * 16 + y) * 16 + z) * 16 + w
       if 0xd800 ≤ n ∧ n < 0xe000 then none
       else parseJStringAux rest (Char.ofNat n :: acc)
     | _, _, _, _ => none)
  | '\\' :: _, _ => none
  | c :: rest, acc => if c.toNat < 0x20 then none else parseJStringAux rest (c :: acc)

/-- Numeric value of a digit string. -/
def natOfDigits (ds : List Char) : Nat :=
  ds.foldl (fun acc c => acc * 10 + (c.toNat - 48)) 0

/-- Parse an unsigned JSON integer (`0 | [1-9][0-9]*`). Rejects a leading zero
followed by more digits, as the CPython scanner does; a following `.`, `e` or
`E` would start a float literal, which is outside the model. -/
def parseNat (input : List Char) : Option (Nat × List Char) :=
  match input with
  | [] => none
  | c :: rest =>
    if c = '0' then
      match rest with
      | [] => some (0, [])
      | c2 :: _ =>
        if c2.isDigit || c2 = '.' || c2 = 'e' || c2 = 'E' then none
        else some (0, rest)
    else if c.isDigit then
      let p := (c :: rest).span (fun d => d.isDigit)
      match p.2 with
      | [] => some (natOfDigits p.1, [])
      | c2 :: _ =>
        if c2 = '.' || c2 = 'e' || c2 = 'E' then none
        else some (natOfDigits p.1, p.2)
    else none

/-- Parse a JSON number (integer fragment), with optional leading minus. -/
def parseNumber (input : List Char) : Option (Json × List Char) :=
  match input with
  | '-' :: rest => (parseNat rest).map (fun p => (Json.num (-(p.1 : Int)), p.2))
  | rest => (parseNat rest).map (fun p => (Json.num (p.1 : Int), p.2))

mutual
/-- Parse one JSON value (after skipping leading whitespace), fuel-bounded so
that the definition is structural and kernel-evaluable. -/
def parseValue : Nat → List Char → Option (Json × List Char)
  | 0, _ => none
  | fuel + 1, input =>
    match skipWs input with
    | 'n' :: 'u' :: 'l' :: 'l' :: rest => some (.null, rest)
    | 't' :: 'r' :: 'u' :: 'e' :: rest => some (.bool true, rest)
    | 'f' :: 'a' :: 'l' :: 's' :: 'e' :: rest => some (.bool false, rest)
    | '"' :: rest => (parseJStringAux rest []).map (fun p => (Json.str p.1, p.2))
    | '[' :: rest => (parseElems fuel rest).map (fun p => (Json.arr (jsonListOfList p.1), p.2))
    | '\x7b' :: rest => (parseMembers fuel rest).map (fun p => (Json.obj (objFromList p.1), p.2))
    | rest => parseNumber rest
/-- Parse the elements of a JSON array (after the opening bracket). -/
def parseElems : Nat → List Char → Option (List Json × List Char)
  | 0, _ => none
  | fuel + 1, input =>
    match skipWs input with
    | ']' :: rest => some ([], rest)
    | rest => parseElemsRest fuel rest
/-- Parse one array element and then either a comma and more elements or the
closing bracket. -/
def parseElemsRest : Nat → List Char → Option (List Json × List Char)
  | 0, _ => none
  | fuel + 1, input =>
    match parseValue fuel input with
    | none => none
    | some (v, rest) =>
      match skipWs rest with
      | ',' :: rest2 => (parseElemsRest fuel rest2).map (fun p => (v :: p.1, p.2))
      | ']' :: rest2 => some ([v], rest2)
      | _ => none
/-- Parse the members of a JSON object (after the opening brace), in document
order. -/
def parseMembers : Nat → List Char → Option (List (String × Json) × List Char)
  | 0, _ => none
  | fuel + 1, input =>
    match skipWs input with
    | '\x7d' :: rest => some ([], rest)
    | rest => parseMembersRest fuel rest
/-- Parse one `"key": value` member and then either a comma and more members
or the closing brace. -/
def parseMembersRest : Nat → List Char → Option (List (String × Json) × List Char)
  | 0, _ => none
  | fuel + 1, input =>
    match skipWs input with
    | '"' :: rest =>
      (match parseJStringAux rest [] with
       | none => none
       | some (k, rest2) =>
         match skipWs rest2 with
         | ':' :: rest3 =>
           (match parseValue fuel rest3 with
            | none => none
            | some (v, rest4) =>
              match skipWs rest4 with
              | ',' :: rest5 => (parseMembersRest fuel rest5).map (fun p => ((k, v) :: p.1, p.2))
              | '\x7d' :: rest5 => some ([(k, v)], rest5)
              | _ => none)
         | _ => none)
    | _ => none
end

/-- Embedding of `json.loads`: parse a complete document, requiring that only
whitespace remains.  `none` is a `json.JSONDecodeError`. -/
def jsonLoads (s : String) : Option Json :=
  match parseValue (4 * s.data.length + 8) s.data with
  | some (v, rest) =>
    match skipWs rest with
    | [] => some v
    | _ => none
  | none => none

/-- Lowercase hexadecimal digit character. -/
def hexDigitChar (n : Nat) : Char :=
  if n < 10 then Char.ofNat (48 + n) else Char.ofNat (87 + n)

/-- Four-digit lowercase hexadecimal rendering (for `\uXXXX` escapes). -/
def hex4 (n : Nat) : String :=
  String.mk [hexDigitChar (n / 4096 % 16), hexDigitChar (n / 256 % 16),
             hexDigitChar (n / 16 % 16), hexDigitChar (n % 16)]

/-- Two-digit lowercase hexadecimal rendering (for `\xNN` escapes). -/
def hex2 (n : Nat) : String :=
  String.mk [hexDigitChar (n / 16 % 16), hexDigitChar (n % 16)]

/-- The `\uXXXX` escape of a code point, as `json.dumps` with `ensure_ascii`
emits it (a surrogate pair above the basic plane). -/
def uEscape (n : Nat) : String :=
  if n ≤ 0xffff then "\\u" ++ hex4 n
  else
    let m := n - 0x10000
    "\\u" ++ hex4 (0xd800 + m / 0x400) ++ "\\u" ++ hex4 (0xdc00 + m % 0x400)

/-- Escape one character of a JSON string as `json.dumps` does with the
default `ensure_ascii=True` (CPython `ESCAPE_DCT`). -/
def escapeJsonChar (c : Char) : String :=
  if c = '"' then "\\\""
  else if c = '\\' then "\\\\"
  else if c = '\x08' then "\\b"
  else if c = '\x0c' then "\\f"
  else if c = '\n' then "\\n"
  else if c = '\r' then "\\r"
  else if c = '\t' then "\\t"
  else if c.toNat < 0x20 || c.toNat > 0x7e then uEscape c.toNat
  else String.singleton c

/-- Serialize a string as a JSON string literal (`json.dumps` quoting). -/
def quoteJsonString (s : String) : String :=
  "\"" ++ String.join (s.data.map escapeJsonChar) ++ "\""

mutual
/-- Embedding of `json.dumps` with explicit `separators=(isep, ksep)`. -/
def jsonDumps (isep ksep : String) : Json → String
  | .null => "null"
  | .bool b => if b then "true" else "false"
  | .num n => toString n
  | .str s => quoteJsonString s
  | .arr xs => "[" ++ jsonDumpsList isep ksep xs ++ "]"
  | .obj kvs => "\x7b" ++ jsonDumpsObj isep ksep kvs ++ "\x7d"
/-- Serialize array elements joined by the item separator. -/
def jsonDumpsList (isep ksep : String) : JsonList → String
  | .nil => ""
  | .cons v .nil => jsonDumps isep ksep v
  | .cons v tl => jsonDumps isep ksep v ++ isep ++ jsonDumpsList isep ksep tl
/-- Serialize object members joined by the item separator. -/
def jsonDumpsObj (isep ksep : String) : JsonObj → String
  | .nil => ""
  | .cons k v .nil => quoteJsonString k ++ ksep ++ jsonDumps isep ksep v
  | .cons k v tl =>
    quoteJsonString k ++ ksep ++ jsonDumps isep ksep v ++ isep ++ jsonDumpsObj isep ksep tl
end

/-- `json.dumps(v, separators=(',', ':'))`: minimal separators, as used by the
signature-verification fallback canonicalization. -/
def jsonDumpsMin (v : Json) : String := jsonDumps "," ":" v

/-- `json.dumps(v)` with the default separators (comma-space, colon-space). -/
def jsonDumpsDefault (v : Json) : String := jsonDumps ", " ": " v

/-! ## Python `str`/`repr` formatting helpers -/

/-- The single-quote character, written by code point to keep literals plain. -/
def squote : Char := Char.ofNat 39

/-- Quote character Python chooses for `repr` of a string or bytes object:
single quotes, unless the content contains a single quote and no double
quote. -/
def pyReprQuote (s : String) : Char :=
  if s.data.contains squote && !(s.data.contains '"') then '"' else squote

/-- Escape one byte for the Python `bytes.__repr__` method with quote character `q`:
backslash, the quote, `\t`, `\n`, `\r` get two-character escapes, other
non-printable bytes become `\xNN`.  (Used only on ASCII output of
`json.dumps`, whose UTF-8 bytes coincide with its characters.) -/
def pyBytesReprChar (q c : Char) : String :=
  if c = '\\' then "\\\\"
  else if c = q then "\\" ++ String.singleton q
  else if c = '\t' then "\\t"
  else if c = '\n' then "\\n"
  else if c = '\r' then "\\r"
  else if c.toNat < 0x20 || c.toNat ≥ 0x7f then "\\x" ++ hex2 c.toNat
  else String.singleton c

/-- The Python `str(b)`/`repr(b)` formatting for a bytes object `b`: a `b` prefix, a quote,
the escaped content, a closing quote.  This is what an f-string interpolates
for a bytes value - the crux of the fallback-canonicalization claim. -/
def pyBytesRepr (s : String) : String :=
  let q := pyReprQuote s
  "b" ++ String.singleton q ++ String.join (s.data.map (pyBytesReprChar q)) ++ String.singleton q

/-- Escape one character for the Python `str.__repr__` method with quote character `q`.
Non-ASCII printable characters are kept as-is (approximating the Python
printability test; only reached for exotic diagnostic messages). -/
def pyStrReprChar (q c : Char) : String :=
  if c = '\\' then "\\\\"
  else if c = q then "\\" ++ String.singleton q
  else if c = '\t' then "\\t"
  else if c = '\n' then "\\n"
  else if c = '\r' then "\\r"
  else if c.toNat < 0x20 || c.toNat = 0x7f then "\\x" ++ hex2 c.toNat
  else String.singleton c

/-- The Python `repr` of a string. -/
def pyStrRepr (s : String) : String :=
  let q := pyReprQuote s
  String.singleton q ++ String.join (s.data.map (pyStrReprChar q)) ++ String.singleton q

mutual
/-- The Python `repr` of a decoded JSON value. -/
def pyRepr : Json → String
  | .null => "None"
  | .bool b => if b then "True" else "False"
  | .num n => toString n
  | .str s => pyStrRepr s
  | .arr xs => "[" ++ pyReprList xs ++ "]"
  | .obj kvs => "\x7b" ++ pyReprObj kvs ++ "\x7d"
/-- Comma-joined `repr`s of list elements. -/
def pyReprList : JsonList → String
  | .nil => ""
  | .cons v .nil => pyRepr v
  | .cons v tl => pyRepr v ++ ", " ++ pyReprList tl
/-- Comma-joined `repr`s of dict items. -/
def pyReprObj : JsonObj → String
  | .nil => ""
  | .cons k v .nil => pyStrRepr k ++ ": " ++ pyRepr v
  | .cons k v tl => pyStrRepr k ++ ": " ++ pyRepr v ++ ", " ++ pyReprObj tl
end

/-- The Python `str` of a decoded JSON value, as an f-string interpolates it:
a string interpolates as itself, every other value as its `repr`. -/
def pyStr : Json → String
  | .str s => s
  | v => pyRepr v

/-- Python `==` between a value decoded from JSON and an int constant
(`interaction_type == InteractionType.PING` etc.); `True == 1` and
`False == 0` hold in Python. -/
def pyEqInt (v : Option Json) (n : Int) : Bool :=
  match v with
  | some (.num m) => m = n
  | some (.bool b) => (if b then (1 : Int) else 0) = n
  | _ => false

/-- The Python `str` of `interaction_type`, which is `None` when the `type`
field was absent. -/
def pyStrOpt : Option Json → String
  | none => "None"
  | some v => pyStr v

/-! ## Python exceptions and subscript/lookup operations -/

/-- Python exceptions observable at the dispatcher boundary. -/
inductive PyExc where
  /-- `AbortError(http_code)` raised by `DiscordInteractions.abort`;
  the payload is the `f-string` `"code reason"`. -/
  | abortError (http_code : String)
  /-- `ValueError(msg)`. -/
  | valueError (msg : String)
  /-- `KeyError(key)` from a failed `d[key]` subscript. -/
  | keyError (key : String)
  /-- `TypeError` from subscripting a non-dict or hashing an unhashable key. -/
  | typeError (msg : String)
  /-- `AttributeError` from calling `.get` on a non-dict JSON body. -/
  | attributeError (msg : String)
  /-- `RuntimeWarning(msg)` raised for unsupported interaction types. -/
  | runtimeWarning (msg : String)
  /-- `json.JSONDecodeError` from `json.loads`. -/
  | jsonDecodeError
  /-- An arbitrary exception raised inside a user-registered handler. -/
  | raised (msg : String)
deriving DecidableEq

/-- Python subscript `j[k]` on a decoded JSON value with a string key:
`KeyError` when the key is absent, `TypeError` when the value is not an
object. -/
def getItem (j : Json) (k : String) : Except PyExc Json :=
  match j with
  | .obj kvs =>
    match objGet k kvs with
    | some v => .ok v
    | none => .error (.keyError k)
  | _ => .error (.typeError "value is not subscriptable by a string")

/-- Python `j.get(k)` on a decoded JSON value: `AttributeError` when the value
is not an object (e.g. a top-level JSON array has no `.get`). -/
def pyGet (j : Json) (k : String) : Except PyExc (Option Json) :=
  match j with
  | .obj kvs => .ok (objGet k kvs)
  | _ => .error (.attributeError "get")

/-- Python `d.get(key)` on a string-keyed registry dict where the key is a
decoded JSON value: unhashable keys raise `TypeError`, hashable non-string
keys never equal a string key. -/
def dictGetJson {α : Type} (d : List (String × α)) (k : Json) : Except PyExc (Option α) :=
  match k with
  | .str s => .ok (dictGet s d)
  | .arr _ => .error (.typeError "unhashable type")
  | .obj _ => .error (.typeError "unhashable type")
  | _ => .ok none

/-- Python `d[key]` on a string-keyed registry dict where the key is a decoded
JSON value: like `dictGetJson`, but a missing key raises `KeyError`. -/
def dictIndexJson {α : Type} (d : List (String × α)) (k : Json) : Except PyExc α :=
  match k with
  | .str s =>
    (match dictGet s d with
     | some v => .ok v
     | none => .error (.keyError s))
  | .arr _ => .error (.typeError "unhashable type")
  | .obj _ => .error (.typeError "unhashable type")
  | other => .error (.keyError (pyStr other))

/-! ## Token cache (`fetch_token` / `auth_headers`) -/

/-- The cached OAuth token dict (`self.discord_token`): the fields read back
by `auth_headers`.  Times are idealized as rationals. -/
structure DiscordToken where
  access_token : String
  expires_on : ℚ
deriving DecidableEq

/-- The token-endpoint response of the platform (`response.json()`): the fields
`fetch_token` consumes. -/
structure TokenResp where
  access_token : String
  expires_in : ℚ
deriving DecidableEq

/-- Embedding of `DiscordInteractions.fetch_token` at the moment `now`
(a successful exchange; `raise_for_status` failures are an upstream concern
outside these claims): the token dict is the response plus
`expires_on = time.time() + expires_in / 2`. -/
def fetch_token (now : ℚ) (resp : TokenResp) : DiscordToken :=
  { access_token := resp.access_token, expires_on := now + resp.expires_in / 2 }

/-- Embedding of `DiscordInteractions.auth_headers`: given the cached slot and
the current time, returns the new slot, the Authorization header value, and
the number of token fetches performed.  The code refreshes when no token is
cached or `time.time() > expires_on` (strict). -/
def auth_headers (current : Option DiscordToken) (now : ℚ) (resp : TokenResp) :
    Option DiscordToken × String × Nat :=
  match current with
  | none =>
    let t := fetch_token now resp
    (some t, "Bearer " ++ t.access_token, 1)
  | some t =>
    if now > t.expires_on then
      let t2 := fetch_token now resp
      (some t2, "Bearer " ++ t2.access_token, 1)
    else
      (some t, "Bearer " ++ t.access_token, 0)

/-! ## Registries, handlers, blueprints -/

/-- The observable outcome of invoking an opaque user-registered callable:
it returns a `Modal` instance, returns a message-like value (normalized by
`Message.from_return_value`), or raises an exception. -/
inductive HandlerRet where
  | modal (payload : String)
  | message (content : String)
  | raiseExc (msg : String)
deriving DecidableEq

/-- A registered command descriptor, reduced to what dispatch observes: the
outcome of its main handler and of its autocomplete entry point. -/
structure CommandModel where
  ret : HandlerRet
  autocompleteResult : String
deriving DecidableEq

/-- A `DiscordInteractionsBlueprint`: the two registries populated at startup
(`discord_commands` keyed by command name, `custom_id_handlers` keyed by the
primary custom id). -/
structure Blueprint where
  discord_commands : List (String × CommandModel)
  custom_id_handlers : List (String × HandlerRet)
deriving DecidableEq

/-- Embedding of `DiscordInteractions.register_blueprint`: both registries are
merged with `dict.update`, the entries of the blueprint overwriting those of the receiver
on key collision, with no error raised. -/
def register_blueprint (self bp : Blueprint) : Blueprint :=
  { discord_commands := dictUpdate self.discord_commands bp.discord_commands,
    custom_id_handlers := dictUpdate self.custom_id_handlers bp.custom_id_handlers }

/-- Events observable by user-registered logic or the registries during the
dispatch of one request. -/
inductive Event where
  /-- The main handler of a command was invoked (`make_context_and_run`). -/
  | commandInvoked (name : String)
  /-- The autocomplete entry point of a command was invoked. -/
  | autocompleteInvoked (name : String)
  /-- A custom-id handler was invoked (`handler(context, *args)`). -/
  | customHandlerInvoked (primary_id : String)
deriving DecidableEq

/-- The dispatcher state an inbound request sees: the root registries plus the
configuration consumed by `verify_signature`.  `signedMessage` is the
idealized-Ed25519 parameter: the unique message that the signature
header of the request validates under the configured public key. -/
structure PyEnv where
  DONT_VALIDATE_SIGNATURE : Bool
  signedMessage : String
  discord_commands : List (String × CommandModel)
  custom_id_handlers : List (String × HandlerRet)

/-- An inbound WSGI request: the two signature headers and the raw body bytes
(assumed valid UTF-8, so kept as a string). -/
structure Request where
  signature : Option String
  timestamp : Option String
  raw_data : String

/-- Idealized Ed25519 verification (see `PyEnv.signedMessage`): the check
succeeds exactly on the one message the signature validates. -/
def edVerify (signedMessage message : String) : Bool :=
  message = signedMessage

/-! ## The dispatch pipeline -/

/-- Result of a successful dispatch, before `.encode()`: the object
`handle_request` returns. -/
inductive DispatchResult where
  /-- The fixed `PongResponse`. -/
  | pong
  /-- A `Message` (wrapped by `Message.from_return_value`). -/
  | message (content : String)
  /-- A `Modal` returned unchanged by a custom-id handler. -/
  | modal (payload : String)
  /-- An `AutocompleteResult`. -/
  | autocomplete (payload : String)
deriving DecidableEq

/-- Embedding of `DiscordInteractions.verify_signature`.  Returns whether the
whitespace-diagnostic warning was emitted.  Mirrors the source exactly: read
headers; skip everything when `DONT_VALIDATE_SIGNATURE`; abort 401 when a
header is missing; check `timestamp + raw_body`; on failure re-serialize the
parsed body with minimal separators and check `f"[timestamp][body]"` where
`body` is a *bytes* object, so the f-string interpolates its Python repr. -/
def verify_signature (env : PyEnv) (req : Request) : Except PyExc Bool :=
  if env.DONT_VALIDATE_SIGNATURE then .ok false
  else
    match req.signature, req.timestamp with
    | some _, some ts =>
      let message := ts ++ req.raw_data
      if edVerify env.signedMessage message then .ok false
      else
        match jsonLoads req.raw_data with
        | none => .error .jsonDecodeError
        | some v =>
          let body := jsonDumpsMin v
          let message2 := ts ++ pyBytesRepr body
          if edVerify env.signedMessage message2 then .ok true
          else .error (.abortError "401 Incorrect Signature")
    | _, _ => .error (.abortError "401 Missing signature or timestamp")

/-- Modelled from the spec: `Command.make_context_and_run` lives in
`command.py`, which is not under `src/`.  Per the spec, a matched descriptor
yields an execution context and its handler is invoked synchronously exactly
once; the return value is normalized into a response-message value (a modal
return is forwarded as-is).  The invocation is recorded as an event; an
exception raised by the handler propagates. -/
def make_context_and_run (cmd : CommandModel) (name : String) :
    Except PyExc DispatchResult × List Event :=
  match cmd.ret with
  | .raiseExc m => (.error (.raised m), [.commandInvoked name])
  | .modal p => (.ok (.modal p), [.commandInvoked name])
  | .message s => (.ok (.message s), [.commandInvoked name])

/-- Embedding of `DiscordInteractions.run_command`: read `data["data"]["name"]`,
look the name up with `dict.get`, raise `ValueError` naming the invalid
command when absent, otherwise run the command. -/
def run_command (env : PyEnv) (data : Json) : Except PyExc DispatchResult × List Event :=
  match getItem data "data" with
  | .error e => (.error e, [])
  | .ok d =>
    match getItem d "name" with
    | .error e => (.error e, [])
    | .ok nameJ =>
      match dictGetJson env.discord_commands nameJ with
      | .error e => (.error e, [])
      | .ok none => (.error (.valueError ("Invalid command name: " ++ pyStr nameJ)), [])
      | .ok (some cmd) => make_context_and_run cmd (pyStr nameJ)

/-- The delimiter custom ids are split on.  Modelled from the spec:
`Context.from_data` lives in `context.py`, not under `src/`; per the spec the
custom id is decomposed on a fixed delimiter into a primary segment and
trailing argument segments. -/
def CUSTOM_ID_DELIMITER : Char := '\n'

/-- Split on the delimiter, accumulating the current segment in reverse. -/
def splitSegmentsAux (delim : Char) : List Char → List Char → List String
  | [], acc => [String.mk acc.reverse]
  | c :: rest, acc =>
    if c = delim then String.mk acc.reverse :: splitSegmentsAux delim rest []
    else splitSegmentsAux delim rest (c :: acc)

/-- Split a string on a delimiter character (always at least one segment). -/
def splitSegments (delim : Char) (s : String) : List String :=
  splitSegmentsAux delim s.data []

/-- The part of a `Context` that custom-id resolution consumes. -/
structure ContextModel where
  primary_id : String
  handler_args : List String
deriving DecidableEq

/-- Modelled from the spec: `Context.from_data` (in `context.py`, not under
`src/`) reads the custom id of the interaction from the body and splits it on the
fixed delimiter; the first segment is the primary id, the rest are the
positional handler arguments. -/
def contextFromData (data : Json) : Except PyExc ContextModel :=
  match getItem data "data" with
  | .error e => .error e
  | .ok d =>
    match getItem d "custom_id" with
    | .error e => .error e
    | .ok (.str cid) =>
      let segs := splitSegments CUSTOM_ID_DELIMITER cid
      .ok { primary_id := segs.headD "", handler_args := segs.tail }
    | .ok _ => .error (.typeError "custom_id is not a string")

/-- Embedding of `DiscordInteractions.run_handler`: build the context, index
`custom_id_handlers` directly (bare `KeyError` when absent), invoke the
handler, and post-process the result: a `Modal` return is forwarded when
`allow_modal` and rejected with `ValueError` otherwise; any other return is
normalized by `Message.from_return_value`. -/
def run_handler (env : PyEnv) (data : Json) (allow_modal : Bool) :
    Except PyExc DispatchResult × List Event :=
  match contextFromData data with
  | .error e => (.error e, [])
  | .ok ctx =>
    match dictGet ctx.primary_id env.custom_id_handlers with
    | none => (.error (.keyError ctx.primary_id), [])
    | some h =>
      let evs := [Event.customHandlerInvoked ctx.primary_id]
      match h with
      | .raiseExc m => (.error (.raised m), evs)
      | .modal p =>
        if allow_modal then (.ok (.modal p), evs)
        else (.error (.valueError "Cannot return a Modal to that interaction type."), evs)
      | .message s => (.ok (.message s), evs)

/-- Modelled from the spec: `Command.make_context_and_run_autocomplete` (in
`command.py`, not under `src/`) invokes the autocomplete-specific
entry point instead of its main handler. -/
def make_context_and_run_autocomplete (cmd : CommandModel) (name : String) :
    Except PyExc DispatchResult × List Event :=
  (.ok (.autocomplete cmd.autocompleteResult), [.autocompleteInvoked name])

/-- Embedding of `DiscordInteractions.run_autocomplete`: read
`data["data"]["name"]`, index the registry dict *directly* (bare `KeyError`
when the name is absent - unlike `run_command`), then run the autocomplete
entry point. -/
def run_autocomplete (env : PyEnv) (data : Json) :
    Except PyExc DispatchResult × List Event :=
  match getItem data "data" with
  | .error e => (.error e, [])
  | .ok d =>
    match getItem d "name" with
    | .error e => (.error e, [])
    | .ok nameJ =>
      match dictIndexJson env.discord_commands nameJ with
      | .error e => (.error e, [])
      | .ok cmd => make_context_and_run_autocomplete cmd (pyStr nameJ)

/-- Embedding of `DiscordInteractions.handle_request`: verify the signature
first, then read `request["json"].get("type")` and branch on the interaction
type; Ping short-circuits to `PongResponse`, unsupported types raise
`RuntimeWarning`. -/
def handle_request (env : PyEnv) (req : Request) (body : Json) :
    Except PyExc DispatchResult × List Event :=
  match verify_signature env req with
  | .error e => (.error e, [])
  | .ok _ =>
    match pyGet body "type" with
    | .error e => (.error e, [])
    | .ok itype =>
      if pyEqInt itype 1 then (.ok .pong, [])
      else if pyEqInt itype 2 then run_command env body
      else if pyEqInt itype 3 then run_handler env body true
      else if pyEqInt itype 4 then run_autocomplete env body
      else if pyEqInt itype 5 then run_handler env body false
      else
        (.error (.runtimeWarning
          ("Interaction type " ++ pyStrOpt itype ++ " is not yet supported")), [])

/-- The PONG response type code.  Modelled from the spec: `ResponseType` lives
in the models package, not under `src/`; the spec fixes a pong response with
a `type` field from the response-type enumeration, whose PONG member is 1. -/
def ResponseTypePONG : Int := 1

/-- The `.encode()` method of a dispatch result: the response body string and
its mimetype.  The `pong` case is `PongResponse.encode` from the source
(`json.dumps` with default separators); the other envelopes are modelled from
the spec ("normalized result is serialized into the wire envelope (type +
body)"), with the payload of the handler embedded. -/
def encodeResult : DispatchResult → String × String
  | .pong => (jsonDumpsDefault (.obj (.cons "type" (.num ResponseTypePONG) .nil)),
              "application/json")
  | .message c =>
    (jsonDumpsDefault (.obj (.cons "type" (.num 4)
      (.cons "data" (.obj (.cons "content" (.str c) .nil)) .nil))), "application/json")
  | .modal p =>
    (jsonDumpsDefault (.obj (.cons "type" (.num 9)
      (.cons "data" (.str p) .nil))), "application/json")
  | .autocomplete p =>
    (jsonDumpsDefault (.obj (.cons "type" (.num 8)
      (.cons "data" (.str p) .nil))), "application/json")

/-- A WSGI response as `DiscordInteractions.__call__` produces it: the status
line passed to `start_response`, the Content-Type header, and the body. -/
structure WsgiResponse where
  status : String
  contentType : String
  body : String
deriving DecidableEq

/-- Embedding of `DiscordInteractions.__call__`: parse the body (any parse
failure aborts 400 via the inner `try`); run `handle_request`; encode the
result with a `200 OK` status.  Only `AbortError` is caught at this boundary:
it becomes a JSON `error` response whose status line *is* the
`http_code` string of the exception; every other exception propagates out of the entry point
(modelled as an `Except.error` final outcome). -/
def call (env : PyEnv) (req : Request) : Except PyExc WsgiResponse × List Event :=
  match jsonLoads req.raw_data with
  | none =>
    let status := "400 Malformed or missing JSON body"
    (.ok { status := status, contentType := "application/json",
           body := jsonDumpsDefault (.obj (.cons "error" (.str status) .nil)) }, [])
  | some body =>
    match handle_request env req body with
    | (.ok result, evs) =>
      let enc := encodeResult result
      (.ok { status := "200 OK", contentType := enc.2, body := enc.1 }, evs)
    | (.error (.abortError code), evs) =>
      (.ok { status := code, contentType := "application/json",
             body := jsonDumpsDefault (.obj (.cons "error" (.str code) .nil)) }, evs)
    | (.error e, evs) => (.error e, evs)

/-! ## Association-list lemmas for the dict model (shared helpers) -/

theorem dictGet_dictSet_self {α : Type} (k : String) (v : α) (d : List (String × α)) :
    dictGet k (dictSet k v d) = some v := by
  induction d with
  | nil => simp [dictSet, dictGet]
  | cons hd tl ih =>
    obtain ⟨k0, v0⟩ := hd
    by_cases h : k0 = k
    · subst h
      simp [dictSet, dictGet]
    · simp only [dictSet, if_neg h]
      simp only [dictGet, if_neg h]
      exact ih

theorem dictGet_dictSet_ne {α : Type} (k k2 : String) (v : α) (d : List (String × α))
    (h : k2 ≠ k) : dictGet k (dictSet k2 v d) = dictGet k d := by
  induction d with
  | nil => simp [dictSet, dictGet, h]
  | cons hd tl ih =>
    obtain ⟨k0, v0⟩ := hd
    by_cases h0 : k0 = k2
    · subst h0
      simp only [dictSet, if_pos rfl]
      simp only [dictGet, if_neg h]
    · simp only [dictSet, if_neg h0]
      by_cases h1 : k0 = k
      · simp only [dictGet, if_pos h1]
      · simp only [dictGet, if_neg h1]
        exact ih

theorem hasKey_dictSet {α : Type} (k k2 : String) (v : α) (d : List (String × α)) :
    hasKey k (dictSet k2 v d) = (hasKey k d || k2 = k) := by
  induction d with
  | nil => simp [dictSet, hasKey]
  | cons hd tl ih =>
    obtain ⟨k0, v0⟩ := hd
    by_cases h0 : k0 = k2
    · subst h0
      simp only [dictSet, if_pos rfl]
      by_cases h1 : k0 = k
      · simp [hasKey, h1]
      · simp [hasKey, h1]
    · simp only [dictSet, if_neg h0]
      by_cases h1 : k0 = k
      · simp [hasKey, h1]
      · simp [hasKey, h1, ih]

theorem dictGet_eq_none_of_hasKey_false {α : Type} (k : String) (d : List (String × α))
    (h : hasKey k d = false) : dictGet k d = none := by
  induction d with
  | nil => simp [dictGet]
  | cons hd tl ih =>
    obtain ⟨k0, v0⟩ := hd
    by_cases h0 : k0 = k
    · simp [hasKey, h0] at h
    · simp [hasKey, h0] at h
      simp [dictGet, h0, ih h]

theorem mem_keys_of_hasKey {α : Type} (k : String) (d : List (String × α))
    (h : hasKey k d = true) : k ∈ d.map Prod.fst := by
  induction d with
  | nil => simp [hasKey] at h
  | cons hd tl ih =>
    obtain ⟨k0, v0⟩ := hd
    by_cases h0 : k0 = k
    · simp [h0]
    · simp [hasKey, h0] at h
      simp [ih h]

theorem dictGet_dictUpdate_of_hasKey_false {α : Type} (k : String)
    (a b : List (String × α)) (h : hasKey k b = false) :
    dictGet k (dictUpdate a b) = dictGet k a := by
  induction b generalizing a with
  | nil => simp [dictUpdate]
  | cons hd tl ih =>
    obtain ⟨k0, v0⟩ := hd
    by_cases h0 : k0 = k
    · simp [hasKey, h0] at h
    · simp [hasKey, h0] at h
      have step : dictUpdate a ((k0, v0) :: tl) = dictUpdate (dictSet k0 v0 a) tl := by
        simp [dictUpdate]
      rw [step, ih (dictSet k0 v0 a) h, dictGet_dictSet_ne k k0 v0 a h0]

theorem dictGet_dictUpdate_of_hasKey {α : Type} (k : String) (a b : List (String × α))
    (hnd : (b.map Prod.fst).Nodup) (h : hasKey k b = true) :
    dictGet k (dictUpdate a b) = dictGet k b := by
  induction b generalizing a with
  | nil => simp [hasKey] at h
  | cons hd tl ih =>
    obtain ⟨k0, v0⟩ := hd
    have step : dictUpdate a ((k0, v0) :: tl) = dictUpdate (dictSet k0 v0 a) tl := by
      simp [dictUpdate]
    have hnd2 : (tl.map Prod.fst).Nodup := (List.nodup_cons.mp hnd).2
    by_cases htl : hasKey k tl = true
    · have hk0 : k0 ≠ k := by
        intro hk
        subst hk
        exact (List.nodup_cons.mp hnd).1 (mem_keys_of_hasKey k0 tl htl)
      rw [step, ih (dictSet k0 v0 a) hnd2 htl]
      simp only [dictGet, if_neg hk0]
    · have htl2 : hasKey k tl = false := by revert htl; cases hasKey k tl <;> simp
      have hk0 : k0 = k := by
        by_contra hk
        simp [hasKey, hk, htl2] at h
      subst hk0
      rw [step, dictGet_dictUpdate_of_hasKey_false k0 _ tl htl2, dictGet_dictSet_self]
      simp [dictGet]

theorem dictGet_dictUpdate_comm_of_disjoint {α : Type} (a b : List (String × α))
    (hna : (a.map Prod.fst).Nodup) (hnb : (b.map Prod.fst).Nodup)
    (hdisj : ∀ k2, hasKey k2 a = true → hasKey k2 b = false) (k : String) :
    dictGet k (dictUpdate a b) = dictGet k (dictUpdate b a) := by
  by_cases hb : hasKey k b = true
  · have ha : hasKey k a = false := by
      by_contra hc
      have hc2 : hasKey k a = true := by revert hc; cases hasKey k a <;> simp
      rw [hdisj k hc2] at hb
      exact Bool.false_ne_true hb
    rw [dictGet_dictUpdate_of_hasKey k a b hnb hb,
        dictGet_dictUpdate_of_hasKey_false k b a ha]
  · have hb2 : hasKey k b = false := by revert hb; cases hasKey k b <;> simp
    rw [dictGet_dictUpdate_of_hasKey_false k a b hb2]
    by_cases ha : hasKey k a = true
    · rw [dictGet_dictUpdate_of_hasKey k b a hna ha]
    · have ha2 : hasKey k a = false := by revert ha; cases hasKey k a <;> simp
      rw [dictGet_dictUpdate_of_hasKey_false k b a ha2,
          dictGet_eq_none_of_hasKey_false k a ha2,
          dictGet_eq_none_of_hasKey_false k b hb2]

/-! ## Claim C1: fallback canonicalization -/

/-- Timestamp of the C1 scenario. -/
def tsC1 : String := "1700000000"

/-- Raw body of the C1 scenario: differs from the signed content only by one
JSON whitespace character. -/
def rawBodyC1 : String := "\x7b\"type\": 1\x7d"

/-- The canonical (minimal-separator) serialization of that body: the content
that was actually signed. -/
def canonBodyC1 : String := "\x7b\"type\":1\x7d"

/-- Dispatcher state for the C1 scenario: validation on, signature validating
`timestamp + canonical body`. -/
def envC1 : PyEnv :=
  { DONT_VALIDATE_SIGNATURE := false, signedMessage := tsC1 ++ canonBodyC1,
    discord_commands := [], custom_id_handlers := [] }

/-- The C1 request: both signature headers present, whitespace-padded body. -/
def reqC1 : Request :=
  { signature := some "a1b2c3", timestamp := some tsC1, raw_data := rawBodyC1 }

/-- C1: the claim says a body that differs from the signed content only in
JSON whitespace is re-serialized with minimal separators, verification is
retried against the re-serialized bytes, and the call succeeds with a
diagnostic warning.  The code cannot do this: the retry message is built with
`f"[timestamp][body]"` where `body` is a bytes object, so the f-string
interpolates the Python bytes repr (a `b` prefix and quotes) instead of the
body itself, and the retry compares against the quote-wrapped canonical body,
which is never
what was signed.  Concretely: the body parses, its minimal re-serialization
is exactly the signed content (so the claimed behavior would succeed), the
raw check fails, yet `verify_signature` aborts with 401 because the message
it retries differs from the signed message by the repr wrapper. -/
theorem C1_fallback_canonicalization_code_bug :
    (jsonLoads rawBodyC1).map jsonDumpsMin = some canonBodyC1 ∧
    rawBodyC1 ≠ canonBodyC1 ∧
    edVerify envC1.signedMessage (tsC1 ++ canonBodyC1) = true ∧
    edVerify envC1.signedMessage (tsC1 ++ rawBodyC1) = false ∧
    tsC1 ++ pyBytesRepr canonBodyC1 ≠ tsC1 ++ canonBodyC1 ∧
    verify_signature envC1 reqC1 = .error (.abortError "401 Incorrect Signature") := by
  refine ⟨by rfl, by decide, by rfl, by decide, by decide, by rfl⟩

/-! ## Claim C3: verification precedes classification and dispatch -/

/-- C3: for every dispatcher state, request and parsed body, a request whose
signature verification fails produces that verification error directly: the
interaction type is never classified, no registry lookup happens, and no
user-registered handler is invoked (the event trace is empty). -/
theorem C3_verification_precedes_dispatch (env : PyEnv) (req : Request) (body : Json)
    (e : PyExc) (hv : verify_signature env req = .error e) :
    handle_request env req body = (.error e, []) := by
  simp [handle_request, hv]

/-- Dispatcher state for the C3 witness: a populated registry that must not be
reached. -/
def envC3 : PyEnv :=
  { DONT_VALIDATE_SIGNATURE := false, signedMessage := "irrelevant",
    discord_commands := [("greet", { ret := .message "hi", autocompleteResult := "ac" })],
    custom_id_handlers := [("btn", .message "clicked")] }

/-- The C3 witness request: no signature header. -/
def reqC3 : Request :=
  { signature := none, timestamp := some "12345", raw_data := "\x7b\"type\": 2\x7d" }

/-- Witness for C3 at a concrete unsigned request against a populated
registry. -/
theorem C3_verification_precedes_dispatch_witness :
    verify_signature envC3 reqC3 = .error (.abortError "401 Missing signature or timestamp") ∧
    handle_request envC3 reqC3 (.obj (.cons "type" (.num 2) .nil)) =
      (.error (.abortError "401 Missing signature or timestamp"), []) :=
  ⟨rfl, C3_verification_precedes_dispatch envC3 reqC3 (.obj (.cons "type" (.num 2) .nil))
    (.abortError "401 Missing signature or timestamp") rfl⟩

/-! ## Claim C2: authentication-failure responses -/

/-- Shared helper: the only two `AbortError` payloads `verify_signature` can
raise, and they differ according to which check failed. -/
theorem verify_signature_abort_cases (env : PyEnv) (req : Request) (c : String)
    (h : verify_signature env req = .error (.abortError c)) :
    c = "401 Missing signature or timestamp" ∨ c = "401 Incorrect Signature" := by
  unfold verify_signature at h
  by_cases hd : env.DONT_VALIDATE_SIGNATURE = true
  · simp [hd] at h
  · rw [if_neg hd] at h
    rcases req with ⟨sig, ts, raw⟩
    cases sig with
    | none =>
      simp only [] at h
      exact Or.inl (by injection h with h2; injection h2 with h3; exact h3.symm)
    | some s =>
      cases ts with
      | none =>
        simp only [] at h
        exact Or.inl (by injection h with h2; injection h2 with h3; exact h3.symm)
      | some t =>
        simp only [] at h
        by_cases h1 : edVerify env.signedMessage (t ++ raw) = true
        · rw [if_pos h1] at h
          exact absurd h (by simp)
        · rw [if_neg h1] at h
          cases hj : jsonLoads raw with
          | none =>
            rw [hj] at h
            exact absurd h (by simp)
          | some v =>
            rw [hj] at h
            have h3 : (if edVerify env.signedMessage (t ++ pyBytesRepr (jsonDumpsMin v)) = true
                then (Except.ok true : Except PyExc Bool)
                else .error (.abortError "401 Incorrect Signature")) =
                .error (.abortError c) := h
            by_cases h2 : edVerify env.signedMessage (t ++ pyBytesRepr (jsonDumpsMin v)) = true
            · rw [if_pos h2] at h3
              exact absurd h3 (by simp)
            · rw [if_neg h2] at h3
              exact Or.inr (by injection h3 with h4; injection h4 with h5; exact h5.symm)

/-- C2 (amended): every authentication failure is raised as an `AbortError`
that `__call__` converts into a response whose status string starts with
`401` and whose body is the JSON object with the status string under the
`error` key; but the status string is one of two distinct reason phrases
that identify which check failed, so the message is not generic. -/
theorem C2_auth_failure_response (env : PyEnv) (req : Request) (c : String) (body : Json)
    (hJ : jsonLoads req.raw_data = some body)
    (hv : verify_signature env req = .error (.abortError c)) :
    (call env req).1 = .ok { status := c, contentType := "application/json",
                             body := jsonDumpsDefault (.obj (.cons "error" (.str c) .nil)) } ∧
    (c = "401 Missing signature or timestamp" ∨ c = "401 Incorrect Signature") := by
  constructor
  · simp [call, hJ, handle_request, hv]
  · exact verify_signature_abort_cases env req c hv

/-- Dispatcher state for the C2 scenario: signature validation enabled. -/
def envC2 : PyEnv :=
  { DONT_VALIDATE_SIGNATURE := false, signedMessage := "signed-elsewhere",
    discord_commands := [], custom_id_handlers := [] }

/-- A C2 request with no signature header at all. -/
def reqC2missing : Request :=
  { signature := none, timestamp := some "111", raw_data := "\x7b\x7d" }

/-- A C2 request with a signature header that fails both checks. -/
def reqC2bad : Request :=
  { signature := some "beef", timestamp := some "111", raw_data := "\x7b\x7d" }

/-- Counterexample to C2 as stated: the two authentication-failure modes
produce observably different status strings and different response bodies,
revealing exactly which check failed (the claim demands a generic message
that does not reveal it).  The body is also not `error: <numeric code>` but
`error: <status string>`. -/
theorem C2_reveals_failed_check_counterexample :
    (call envC2 reqC2missing).1 = .ok
      { status := "401 Missing signature or timestamp", contentType := "application/json",
        body := "\x7b\"error\": \"401 Missing signature or timestamp\"\x7d" } ∧
    (call envC2 reqC2bad).1 = .ok
      { status := "401 Incorrect Signature", contentType := "application/json",
        body := "\x7b\"error\": \"401 Incorrect Signature\"\x7d" } ∧
    ("401 Missing signature or timestamp" : String) ≠ "401 Incorrect Signature" := by
  refine ⟨by rfl, by rfl, by decide⟩

/-- Witness for the amended C2 at the concrete missing-signature request. -/
theorem C2_auth_failure_response_witness :
    jsonLoads reqC2missing.raw_data = some (.obj .nil) ∧
    verify_signature envC2 reqC2missing =
      .error (.abortError "401 Missing signature or timestamp") ∧
    ((call envC2 reqC2missing).1 = .ok
      { status := "401 Missing signature or timestamp", contentType := "application/json",
        body := jsonDumpsDefault
          (.obj (.cons "error" (.str "401 Missing signature or timestamp") .nil)) } ∧
     ("401 Missing signature or timestamp" = "401 Missing signature or timestamp" ∨
      "401 Missing signature or timestamp" = "401 Incorrect Signature")) :=
  ⟨rfl, rfl, C2_auth_failure_response envC2 reqC2missing
    "401 Missing signature or timestamp" (.obj .nil) rfl rfl⟩

/-! ## Claim C4: ApplicationCommand dispatch and unknown names -/

/-- An ApplicationCommand interaction body with the given `data.name`. -/
def cmdBody (name : String) : Json :=
  .obj (.cons "type" (.num 2) (.cons "data" (.obj (.cons "name" (.str name) .nil)) .nil))

/-- C4 (amended): for a registered name the handler of the command is invoked
exactly once and its return value is encoded into the `200 OK` response; for
an unregistered name the checked lookup in `run_command` raises a `ValueError`
naming the invalid command (not a bare `KeyError` crash of the lookup), but
`__call__` does not convert it into an error response: the exception
propagates uncaught past the dispatcher entry point. -/
theorem C4_command_dispatch (env : PyEnv) (req : Request) (name content : String)
    (cmd : CommandModel) (w : Bool)
    (hv : verify_signature env req = .ok w)
    (hJ : jsonLoads req.raw_data = some (cmdBody name)) :
    (dictGet name env.discord_commands = some cmd → cmd.ret = .message content →
      handle_request env req (cmdBody name) =
        (.ok (.message content), [.commandInvoked name]) ∧
      (call env req).1 = .ok { status := "200 OK", contentType := "application/json",
                               body := (encodeResult (.message content)).1 }) ∧
    (dictGet name env.discord_commands = none →
      handle_request env req (cmdBody name) =
        (.error (.valueError ("Invalid command name: " ++ name)), []) ∧
      (call env req).1 = .error (.valueError ("Invalid command name: " ++ name))) := by
  constructor
  · intro hreg hret
    have hh : handle_request env req (cmdBody name) =
        (.ok (.message content), [.commandInvoked name]) := by
      simp [handle_request, hv, cmdBody, pyGet, objGet, pyEqInt, run_command, getItem,
            dictGetJson, hreg, make_context_and_run, hret, pyStr]
    refine ⟨hh, ?_⟩
    simp only [call, hJ, hh]
    rfl
  · intro hnone
    have hh : handle_request env req (cmdBody name) =
        (.error (.valueError ("Invalid command name: " ++ name)), []) := by
      simp [handle_request, hv, cmdBody, pyGet, objGet, pyEqInt, run_command, getItem,
            dictGetJson, hnone, pyStr]
    refine ⟨hh, ?_⟩
    simp only [call, hJ, hh]

/-- Dispatcher state for the C4 scenarios: one registered command, `greet`. -/
def envC4 : PyEnv :=
  { DONT_VALIDATE_SIGNATURE := true, signedMessage := "",
    discord_commands := [("greet", { ret := .message "hello there",
                                     autocompleteResult := "ac" })],
    custom_id_handlers := [] }

/-- An ApplicationCommand request for the unregistered name `unknown`. -/
def reqC4unknown : Request :=
  { signature := none, timestamp := none,
    raw_data := "\x7b\"type\": 2, \"data\": \x7b\"name\": \"unknown\"\x7d\x7d" }

/-- An ApplicationCommand request for the registered name `greet`. -/
def reqC4greet : Request :=
  { signature := none, timestamp := none,
    raw_data := "\x7b\"type\": 2, \"data\": \x7b\"name\": \"greet\"\x7d\x7d" }

/-- Counterexample to C4 as stated: at the concrete unregistered name the
dispatcher entry point does not produce any error response - the `ValueError`
escapes `__call__` uncaught (final outcome is the exception, not an `ok`
response). -/
theorem C4_unknown_command_counterexample :
    (call envC4 reqC4unknown).1 = .error (.valueError "Invalid command name: unknown") := by
  rfl

/-- Witness for the amended C4 at the registered name `greet`: the handler
runs exactly once and its return value is encoded into the 200 response. -/
theorem C4_command_dispatch_witness :
    verify_signature envC4 reqC4greet = .ok false ∧
    jsonLoads reqC4greet.raw_data = some (cmdBody "greet") ∧
    (handle_request envC4 reqC4greet (cmdBody "greet") =
      (.ok (.message "hello there"), [.commandInvoked "greet"]) ∧
     (call envC4 reqC4greet).1 = .ok
       { status := "200 OK", contentType := "application/json",
         body := (encodeResult (.message "hello there")).1 }) := by
  refine ⟨rfl, rfl, ?_⟩
  exact (C4_command_dispatch envC4 reqC4greet "greet" "hello there"
    { ret := .message "hello there", autocompleteResult := "ac" } false rfl rfl).1 rfl rfl

/-! ## Claim C5: failure isolation at the dispatcher boundary -/

/-- C5 (amended): the only exceptions `__call__` converts into structured
error responses are `AbortError`s (the 400/401 aborts); every other failure
outcome of `handle_request` - in particular an exception raised inside a
user-registered handler - propagates unchanged past the dispatcher entry
point. -/
theorem C5_only_abort_is_converted (env : PyEnv) (req : Request) (body : Json)
    (e : PyExc) (evs : List Event)
    (hJ : jsonLoads req.raw_data = some body)
    (hh : handle_request env req body = (.error e, evs)) :
    call env req = ((match e with
      | .abortError c => .ok { status := c, contentType := "application/json",
                               body := jsonDumpsDefault (.obj (.cons "error" (.str c) .nil)) }
      | e2 => .error e2), evs) := by
  simp only [call, hJ, hh]
  cases e <;> rfl

/-- Dispatcher state for the C5 scenario: a custom-id handler that raises. -/
def envC5 : PyEnv :=
  { DONT_VALIDATE_SIGNATURE := true, signedMessage := "",
    discord_commands := [],
    custom_id_handlers := [("boom", .raiseExc "ZeroDivisionError: division by zero")] }

/-- A MessageComponent request that reaches the raising handler. -/
def reqC5 : Request :=
  { signature := none, timestamp := none,
    raw_data := "\x7b\"type\": 3, \"data\": \x7b\"custom_id\": \"boom\"\x7d\x7d" }

/-- The parsed body of the C5 request. -/
def bodyC5 : Json :=
  .obj (.cons "type" (.num 3)
    (.cons "data" (.obj (.cons "custom_id" (.str "boom") .nil)) .nil))

/-- Counterexample to C5 as stated: the handler was invoked and raised, and
the exception is the final outcome of `__call__` - no structured error
response is produced and the exception passes the dispatcher entry point. -/
theorem C5_handler_exception_escapes_counterexample :
    call envC5 reqC5 = (.error (.raised "ZeroDivisionError: division by zero"),
                        [.customHandlerInvoked "boom"]) := by
  rfl

/-- Witness for the amended C5 at the concrete raising handler. -/
theorem C5_only_abort_is_converted_witness :
    jsonLoads reqC5.raw_data = some bodyC5 ∧
    handle_request envC5 reqC5 bodyC5 =
      (.error (.raised "ZeroDivisionError: division by zero"),
       [.customHandlerInvoked "boom"]) ∧
    call envC5 reqC5 = (.error (.raised "ZeroDivisionError: division by zero"),
                        [.customHandlerInvoked "boom"]) :=
  ⟨rfl, rfl, C5_only_abort_is_converted envC5 reqC5 bodyC5
    (.raised "ZeroDivisionError: division by zero") [.customHandlerInvoked "boom"] rfl rfl⟩

/-! ## Claim C6: token cache refresh policy -/

/-- C6 (amended): with no cached token, `auth_headers` performs exactly one
fetch and caches the result; the new expiry is the fetch time plus half the
declared lifetime; while `now ≤ expires_on` the cached token is reused with
zero fetches; when `now > expires_on` (strictly) exactly one new fetch
happens and the old token is replaced wholesale.  (The boundary case of the claim,
`now = expires_on` falls in the reuse case, not the refresh case.) -/
theorem C6_token_cache_refresh (t : DiscordToken) (now : ℚ) (resp : TokenResp) :
    (auth_headers none now resp =
      (some (fetch_token now resp), "Bearer " ++ resp.access_token, 1)) ∧
    ((fetch_token now resp).expires_on = now + resp.expires_in / 2) ∧
    (now ≤ t.expires_on → auth_headers (some t) now resp =
      (some t, "Bearer " ++ t.access_token, 0)) ∧
    (t.expires_on < now → auth_headers (some t) now resp =
      (some (fetch_token now resp), "Bearer " ++ resp.access_token, 1)) := by
  refine ⟨rfl, rfl, ?_, ?_⟩
  · intro h
    simp only [auth_headers, if_neg (not_lt.mpr h)]
  · intro h
    simp only [auth_headers, if_pos h]
    rfl

/-- The cached token of the C6 boundary scenario, expiring exactly at 100. -/
def tokC6 : DiscordToken := { access_token := "cached-token", expires_on := 100 }

/-- The platform response available if a fetch were performed. -/
def respC6 : TokenResp := { access_token := "fresh-token", expires_in := 604800 }

/-- Counterexample to C6 as stated: at `now = expires_at` the claim demands
exactly one new fetch, but the strict comparison in the code
(`time.time() > expires_on`) reuses the cached token with zero fetches. -/
theorem C6_boundary_counterexample :
    auth_headers (some tokC6) 100 respC6 = (some tokC6, "Bearer cached-token", 0) := by
  have h : ¬ ((100 : ℚ) > tokC6.expires_on) := by
    simp only [tokC6]
    norm_num
  simp only [auth_headers, if_neg h]
  rfl

/-- Witness for the amended C6: a call strictly before expiry reuses the
cached token with zero fetches, and a call strictly after expiry performs
exactly one fetch and replaces the token. -/
theorem C6_token_cache_refresh_witness :
    ((99 : ℚ) ≤ 100) ∧
    auth_headers (some tokC6) 99 respC6 = (some tokC6, "Bearer cached-token", 0) ∧
    ((100 : ℚ) < 101) ∧
    auth_headers (some tokC6) 101 respC6 =
      (some (fetch_token 101 respC6), "Bearer fresh-token", 1) := by
  refine ⟨by norm_num, ?_, by norm_num, ?_⟩
  · exact (C6_token_cache_refresh tokC6 99 respC6).2.2.1 (by rw [tokC6]; norm_num)
  · exact (C6_token_cache_refresh tokC6 101 respC6).2.2.2 (by rw [tokC6]; norm_num)

/-! ## Claim C7: modal returns by interaction type -/

/-- A MessageComponent/ModalSubmit interaction body with the given type code
and custom id. -/
def componentBody (ty : Int) (cid : String) : Json :=
  .obj (.cons "type" (.num ty)
    (.cons "data" (.obj (.cons "custom_id" (.str cid) .nil)) .nil))

/-- C7: a handler whose return value is a Modal is rejected with the
protocol-violation `ValueError` when the interaction is a ModalSubmit
(type 5, dispatched with `allow_modal=False`), while the very same handler
value is accepted and forwarded unchanged for a MessageComponent (type 3);
a non-modal return value is accepted for both types.  The handler is invoked
(once) in every case, since the check inspects its return value. -/
theorem C7_modal_return_policy (env : PyEnv) (req : Request) (cid p s : String) (w : Bool)
    (hv : verify_signature env req = .ok w)
    (hsplit : splitSegments CUSTOM_ID_DELIMITER cid = [cid]) :
    (dictGet cid env.custom_id_handlers = some (.modal p) →
      handle_request env req (componentBody 5 cid) =
        (.error (.valueError "Cannot return a Modal to that interaction type."),
         [.customHandlerInvoked cid]) ∧
      handle_request env req (componentBody 3 cid) =
        (.ok (.modal p), [.customHandlerInvoked cid])) ∧
    (dictGet cid env.custom_id_handlers = some (.message s) →
      handle_request env req (componentBody 5 cid) =
        (.ok (.message s), [.customHandlerInvoked cid]) ∧
      handle_request env req (componentBody 3 cid) =
        (.ok (.message s), [.customHandlerInvoked cid])) := by
  constructor
  · intro hm
    constructor
    · simp [handle_request, hv, componentBody, pyGet, objGet, pyEqInt, run_handler,
            contextFromData, getItem, hsplit, hm]
    · simp [handle_request, hv, componentBody, pyGet, objGet, pyEqInt, run_handler,
            contextFromData, getItem, hsplit, hm]
  · intro hm
    constructor
    · simp [handle_request, hv, componentBody, pyGet, objGet, pyEqInt, run_handler,
            contextFromData, getItem, hsplit, hm]
    · simp [handle_request, hv, componentBody, pyGet, objGet, pyEqInt, run_handler,
            contextFromData, getItem, hsplit, hm]

/-- Dispatcher state for the C7 witness: one modal-returning and one
message-returning custom-id handler. -/
def envC7 : PyEnv :=
  { DONT_VALIDATE_SIGNATURE := true, signedMessage := "",
    discord_commands := [],
    custom_id_handlers := [("modalbtn", .modal "m1"), ("msgbtn", .message "ok")] }

/-- A request for the C7 witness (verification bypassed). -/
def reqC7 : Request := { signature := none, timestamp := none, raw_data := "\x7b\x7d" }

/-- Witness for C7 at the concrete handlers: the modal return is rejected for
ModalSubmit and forwarded unchanged for MessageComponent; the message return
is accepted for both. -/
theorem C7_modal_return_policy_witness :
    (handle_request envC7 reqC7 (componentBody 5 "modalbtn") =
      (.error (.valueError "Cannot return a Modal to that interaction type."),
       [.customHandlerInvoked "modalbtn"]) ∧
     handle_request envC7 reqC7 (componentBody 3 "modalbtn") =
      (.ok (.modal "m1"), [.customHandlerInvoked "modalbtn"])) ∧
    (handle_request envC7 reqC7 (componentBody 5 "msgbtn") =
      (.ok (.message "ok"), [.customHandlerInvoked "msgbtn"]) ∧
     handle_request envC7 reqC7 (componentBody 3 "msgbtn") =
      (.ok (.message "ok"), [.customHandlerInvoked "msgbtn"])) :=
  ⟨(C7_modal_return_policy envC7 reqC7 "modalbtn" "m1" "unused" false rfl rfl).1 rfl,
   (C7_modal_return_policy envC7 reqC7 "msgbtn" "unused" "ok" false rfl rfl).2 rfl⟩

/-! ## Claim C8: Ping short-circuits to pong -/

/-- C8: for every dispatcher state - whatever the two registries contain -
and every verified request whose body has `type` field 1, `handle_request`
returns the fixed `PongResponse` with an empty event trace (no registry
lookup, no handler invocation), and `PongResponse.encode` produces the JSON
object with the PONG response type and the `application/json` mimetype. -/
theorem C8_ping_dispatches_pong (env : PyEnv) (req : Request) (w : Bool) (kvs : JsonObj)
    (hv : verify_signature env req = .ok w)
    (ht : objGet "type" kvs = some (.num 1)) :
    handle_request env req (.obj kvs) = (.ok .pong, []) ∧
    encodeResult .pong = ("\x7b\"type\": 1\x7d", "application/json") := by
  constructor
  · simp [handle_request, hv, pyGet, ht, pyEqInt]
  · rfl

/-- Dispatcher state for the C8 witness: both registries populated, to show
they are bypassed. -/
def envC8 : PyEnv :=
  { DONT_VALIDATE_SIGNATURE := true, signedMessage := "",
    discord_commands := [("greet", { ret := .message "hi", autocompleteResult := "ac" })],
    custom_id_handlers := [("btn", .message "clicked")] }

/-- A request for the C8 witness (verification bypassed). -/
def reqC8 : Request :=
  { signature := none, timestamp := none, raw_data := "\x7b\"type\": 1\x7d" }

/-- Witness for C8 at a concrete ping against populated registries. -/
theorem C8_ping_dispatches_pong_witness :
    handle_request envC8 reqC8 (.obj (.cons "type" (.num 1) .nil)) = (.ok .pong, []) ∧
    encodeResult .pong = ("\x7b\"type\": 1\x7d", "application/json") :=
  C8_ping_dispatches_pong envC8 reqC8 false (.cons "type" (.num 1) .nil) rfl rfl

/-! ## Claim C9: blueprint merge semantics -/

/-- C9: `register_blueprint` merges both registries by `dict.update`, a total
operation (no error raised).  As a mapping: a key of the blueprint wins over
the receiver on collision (last-write-wins), a key absent from the blueprint
keeps the entry of the receiver, and for blueprints with disjoint key sets merging
in either order yields the same combined mapping on every key.  The `Nodup`
hypotheses are the Python dict invariant (keys unique within a registry). -/
theorem C9_blueprint_merge (a b : Blueprint)
    (hna : (a.discord_commands.map Prod.fst).Nodup)
    (hnb : (b.discord_commands.map Prod.fst).Nodup)
    (hha : (a.custom_id_handlers.map Prod.fst).Nodup)
    (hhb : (b.custom_id_handlers.map Prod.fst).Nodup) :
    (∀ k, hasKey k b.discord_commands = true →
      dictGet k (register_blueprint a b).discord_commands = dictGet k b.discord_commands) ∧
    (∀ k, hasKey k b.discord_commands = false →
      dictGet k (register_blueprint a b).discord_commands = dictGet k a.discord_commands) ∧
    ((∀ k, hasKey k a.discord_commands = true → hasKey k b.discord_commands = false) →
     (∀ k, hasKey k a.custom_id_handlers = true → hasKey k b.custom_id_handlers = false) →
     ∀ k, dictGet k (register_blueprint a b).discord_commands =
            dictGet k (register_blueprint b a).discord_commands ∧
          dictGet k (register_blueprint a b).custom_id_handlers =
            dictGet k (register_blueprint b a).custom_id_handlers) := by
  refine ⟨?_, ?_, ?_⟩
  · intro k hk
    exact dictGet_dictUpdate_of_hasKey k _ _ hnb hk
  · intro k hk
    exact dictGet_dictUpdate_of_hasKey_false k _ _ hk
  · intro hd1 hd2 k
    exact ⟨dictGet_dictUpdate_comm_of_disjoint _ _ hna hnb hd1 k,
           dictGet_dictUpdate_comm_of_disjoint _ _ hha hhb hd2 k⟩

/-- Receiver blueprint of the C9 witness: has `ping` with one descriptor. -/
def blueprintA9 : Blueprint :=
  { discord_commands := [("ping", { ret := .message "pong from A",
                                    autocompleteResult := "acA" })],
    custom_id_handlers := [("btnA", .message "A")] }

/-- Argument blueprint of the C9 witness: has `ping` with a different
descriptor. -/
def blueprintB9 : Blueprint :=
  { discord_commands := [("ping", { ret := .message "pong from B",
                                    autocompleteResult := "acB" })],
    custom_id_handlers := [("btnB", .message "B")] }

/-- Witness for C9: merging A (has `ping`) with B (has `ping` with a
different descriptor) yields the `ping` of B (last-write-wins), while the key of A
that B lacks survives the merge. -/
theorem C9_blueprint_merge_witness :
    dictGet "ping" (register_blueprint blueprintA9 blueprintB9).discord_commands =
      dictGet "ping" blueprintB9.discord_commands ∧
    dictGet "ping" blueprintB9.discord_commands =
      some { ret := .message "pong from B", autocompleteResult := "acB" } ∧
    dictGet "btnA" (register_blueprint blueprintA9 blueprintB9).custom_id_handlers =
      dictGet "btnA" blueprintA9.custom_id_handlers :=
  ⟨(C9_blueprint_merge blueprintA9 blueprintB9
      (by decide) (by decide) (by decide) (by decide)).1 "ping" (by decide),
   rfl, rfl⟩

/-! ## Claim C10: unregistered names fail differently per path -/

/-- An interaction body carrying only `data.name` (what both command-shaped
paths read). -/
def cmdOnlyBody (name : String) : Json :=
  .obj (.cons "data" (.obj (.cons "name" (.str name) .nil)) .nil)

/-- C10: for every name absent from the command registry, the
ApplicationCommand path (`run_command`) fails with a `ValueError` naming the
invalid command (checked `dict.get` lookup) while the autocomplete path
(`run_autocomplete`) indexes the registry directly and fails with a bare
`KeyError`; the two error kinds are distinct. -/
theorem C10_unregistered_error_kinds (env : PyEnv) (name : String)
    (h : dictGet name env.discord_commands = none) :
    run_command env (cmdOnlyBody name) =
      (.error (.valueError ("Invalid command name: " ++ name)), []) ∧
    run_autocomplete env (cmdOnlyBody name) = (.error (.keyError name), []) ∧
    PyExc.valueError ("Invalid command name: " ++ name) ≠ PyExc.keyError name := by
  refine ⟨?_, ?_, by simp⟩
  · simp [run_command, cmdOnlyBody, getItem, objGet, dictGetJson, h, pyStr]
  · simp [run_autocomplete, cmdOnlyBody, getItem, objGet, dictIndexJson, h]

/-- Dispatcher state for the C10 witness: empty command registry. -/
def envC10 : PyEnv :=
  { DONT_VALIDATE_SIGNATURE := true, signedMessage := "",
    discord_commands := [], custom_id_handlers := [] }

/-- Witness for C10 at the concrete absent name `nope`. -/
theorem C10_unregistered_error_kinds_witness :
    run_command envC10 (cmdOnlyBody "nope") =
      (.error (.valueError "Invalid command name: nope"), []) ∧
    run_autocomplete envC10 (cmdOnlyBody "nope") = (.error (.keyError "nope"), []) ∧
    PyExc.valueError "Invalid command name: nope" ≠ PyExc.keyError "nope" :=
  C10_unregistered_error_kinds envC10 "nope" rfl
